import Mathlib

/-!
Shallow embedding of `src/cynetworkx/release.py` and a verification of the
specified properties of its version-metadata resolution.

The module resolves version metadata in three operations:
  * `get_revision` probes for a `.git` marker directory beside the package;
  * `get_info` determines a date (optionally from the `SOURCE_DATE_EPOCH`
    environment variable), attempts dynamic resolution, falls back to importing
    a previously generated `version.py`, and otherwise synthesizes a version
    string from static constants;
  * `write_versionfile` conditionally (re)writes the generated `version.py`.

Filesystem state, the environment and the generated file are modelled
explicitly; the Python `try: import ... except ImportError` is modelled by an
`Except`-valued import; an unhandled Python exception is an `Except.error`
result of the corresponding operation.
-/

namespace Release

/-- Calendar timestamp: the model of a `datetime.datetime` instance
(`weekday` has Monday = 0, as in `tm_wday` of `timetuple`). -/
structure DateTime where
  year : Nat
  month : Nat
  day : Nat
  hour : Nat
  minute : Nat
  second : Nat
  weekday : Nat
deriving Repr, DecidableEq

/-- Civil (year, month, day) from a count of days since 1970-01-01
(standard era-based calendar conversion, nonnegative days only). -/
def civilFromDays (days : Nat) : Nat × Nat × Nat :=
  let z := days + 719468
  let era := z / 146097
  let doe := z % 146097
  let yoe := (doe - doe / 1460 + doe / 36524 - doe / 146096) / 365
  let doy := doe - (365 * yoe + yoe / 4 - yoe / 100)
  let mp := (5 * doy + 2) / 153
  let d := doy - (153 * mp + 2) / 5 + 1
  let m := if mp < 10 then mp + 3 else mp - 9
  (if m ≤ 2 then yoe + era * 400 + 1 else yoe + era * 400, m, d)

/-- Model of `datetime.datetime.utcfromtimestamp` on nonnegative seconds. -/
def utcfromtimestamp (t : Nat) : DateTime :=
  let days := t / 86400
  let secs := t % 86400
  let c := civilFromDays days
  { year := c.1, month := c.2.1, day := c.2.2,
    hour := secs / 3600, minute := secs % 3600 / 60, second := secs % 60,
    weekday := (days + 3) % 7 }

/-- Two-digit zero-padded decimal rendering. -/
def pad2 (n : Nat) : String :=
  if n < 10 then "0" ++ toString n else toString n

/-- Four-digit zero-padded decimal rendering. -/
def pad4 (n : Nat) : String :=
  if n < 10 then "000" ++ toString n
  else if n < 100 then "00" ++ toString n
  else if n < 1000 then "0" ++ toString n
  else toString n

/-- Two-character space-padded decimal rendering (as in `asctime`). -/
def padSp2 (n : Nat) : String :=
  if n < 10 then " " ++ toString n else toString n

/-- Model of `strftime` with the fixed format `%Y%m%d%H%M%S`. -/
def strftime_YmdHMS (dt : DateTime) : String :=
  pad4 dt.year ++ pad2 dt.month ++ pad2 dt.day ++
    pad2 dt.hour ++ pad2 dt.minute ++ pad2 dt.second

/-- Abbreviated day name, indexed by `tm_wday` (Monday = 0). -/
def dayName : Nat → String
  | 0 => "Mon" | 1 => "Tue" | 2 => "Wed" | 3 => "Thu"
  | 4 => "Fri" | 5 => "Sat" | _ => "Sun"

/-- Abbreviated month name, indexed 1 through 12. -/
def monthName : Nat → String
  | 1 => "Jan" | 2 => "Feb" | 3 => "Mar" | 4 => "Apr"
  | 5 => "May" | 6 => "Jun" | 7 => "Jul" | 8 => "Aug"
  | 9 => "Sep" | 10 => "Oct" | 11 => "Nov" | _ => "Dec"

/-- Model of `time.asctime` applied to the time tuple of a `DateTime`. -/
def asctime (dt : DateTime) : String :=
  dayName dt.weekday ++ " " ++ monthName dt.month ++ " " ++ padSp2 dt.day ++ " " ++
    pad2 dt.hour ++ ":" ++ pad2 dt.minute ++ ":" ++ pad2 dt.second ++ " " ++
    toString dt.year

/-- The `vcs_info` shape: `(vcs, (revision, tag))`. -/
abbrev VcsInfo := Option String × (Option String × Option String)

/-- The `version_info` shape: `(name, major, minor, revision)`. -/
abbrev VersionInfo := String × String × String × Option String

/-- The static module constants of `release.py` that version resolution
reads: `name`, `major`, `minor` and the development flag `dev`. -/
structure Config where
  name : String
  major : String
  minor : String
  dev : Bool
deriving Repr, DecidableEq

/-- Process environment and clock: the optional `SOURCE_DATE_EPOCH`
override (as a nonnegative integer) and the current system time
(`time.time()`), both as Unix seconds. -/
structure Env where
  sourceDateEpoch : Option Nat
  now : Nat
deriving Repr, DecidableEq

/-- `int(os.environ.get(SOURCE_DATE_EPOCH, time.time()))` of
`release.py` line 144. -/
def timestampOf (env : Env) : Nat :=
  env.sourceDateEpoch.getD env.now

/-- Contents of a generated `version.py` file: the fields the writer
substitutes into its template (lines 59-84 of `release.py`). -/
structure VersionRecord where
  version : Option String
  date : String
  dev : Bool
  version_info : Option VersionInfo
  date_info : DateTime
  vcs_info : VcsInfo
deriving Repr, DecidableEq

/-- State of the `version.py` path: the file may hold a well-formed
generated record, or exist while its import fails (for instance a file
that is not reachable as a module), mirroring the failure path the
resolver catches as `ImportError`. -/
inductive VersionFile where
  | parsed (r : VersionRecord)
  | unimportable
deriving Repr, DecidableEq

/-- Filesystem state visible to the module: presence of the `.git` marker
directory beside the package, the state of `version.py`, and whether a
write to `version.py` would fail with a filesystem error. -/
structure Fs where
  gitMarker : Bool
  versionFile : Option VersionFile
  writeErr : Bool
deriving Repr, DecidableEq

/-- `from version import ...`: succeeds exactly when `version.py` holds
an importable generated record; otherwise raises `ImportError`. -/
def importVersion (fs : Fs) : Except String VersionRecord :=
  match fs.versionFile with
  | some (VersionFile.parsed r) => Except.ok r
  | some VersionFile.unimportable => Except.error ("ImportError")
  | none => Except.error ("ImportError")

/-- `get_revision` (lines 127-139): returns `(revision, vcs_info)`,
dynamically obtained. Only the vcs kind is probed (the `.git` marker
directory); revision and tag are left `None`. -/
def get_revision (fs : Fs) : Option String × VcsInfo :=
  let vcs : Option String := if fs.gitMarker then some ("git") else none
  let revision : Option String := none
  let tag : Option String := none
  (revision, (vcs, (revision, tag)))

/-- Return value of `get_info`:
`(date, date_info, version, version_info, vcs_info)`. -/
structure Info where
  date : String
  date_info : DateTime
  version : Option String
  version_info : Option VersionInfo
  vcs_info : Option VcsInfo
deriving Repr, DecidableEq

/-- The version string synthesized from the static constants
(lines 175-177): `major.minor`, with `.dev_` and the timestamp appended
when the development flag is set. -/
def synthVersion (cfg : Config) (date_info : DateTime) : String :=
  if cfg.dev then
    cfg.major ++ "." ++ cfg.minor ++ ".dev_" ++ strftime_YmdHMS date_info
  else cfg.major ++ "." ++ cfg.minor

/-- `get_info` (lines 142-180). Determines `date_info`/`date` from the
environment; when `dynamic`, runs `get_revision` and records whether it
failed (no revision); on dynamic failure or `dynamic = False`, imports
`version.py`, catching `ImportError`; finally, when the import failed or
dynamic resolution succeeded, synthesizes `version` and `version_info`
from the static constants. -/
def get_info (cfg : Config) (env : Env) (fs : Fs) (dynamic : Bool) : Info :=
  let date_info := utcfromtimestamp (timestampOf env)
  let date := asctime date_info
  let dynStep := if dynamic then some (get_revision fs) else none
  let dynamic_failed := match dynStep with
    | some p => p.1.isNone
    | none => false
  let revision : Option String := match dynStep with
    | some p => p.1
    | none => none
  if dynamic_failed || !dynamic then
    match importVersion fs with
    | Except.error _ =>
        { date := date, date_info := date_info,
          version := some (synthVersion cfg date_info),
          version_info := some (cfg.name, cfg.major, cfg.minor, revision),
          vcs_info := some (none, (none, none)) }
    | Except.ok r =>
        { date := r.date, date_info := r.date_info,
          version := r.version, version_info := r.version_info,
          vcs_info := some r.vcs_info }
  else
    { date := date, date_info := date_info,
      version := some (synthVersion cfg date_info),
      version_info := some (cfg.name, cfg.major, cfg.minor, revision),
      vcs_info := match dynStep with | some p => some p.2 | none => none }

/-- The record `write_versionfile` substitutes into the `version.py`
template (lines 89-100); `dev` is the static module constant. -/
def recordOf (cfg : Config) (i : Info) : VersionRecord :=
  { version := i.version, date := i.date, dev := cfg.dev,
    version_info := i.version_info, date_info := i.date_info,
    vcs_info := i.vcs_info.getD (none, (none, none)) }

/-- The inner `writefile` (lines 89-100): opens `version.py` for writing
and writes the substituted template; a filesystem error while writing is
an unhandled exception. -/
def writefile (fs : Fs) (r : VersionRecord) : Except String Fs :=
  if fs.writeErr then Except.error ("IOError")
  else Except.ok { fs with versionFile := some (VersionFile.parsed r) }

/-- `write_versionfile` (lines 55-124): resolves metadata via
`get_info(dynamic=True)`; writes when the resolved vcs kind is
`mercurial`; otherwise, when `version.py` exists, imports `version` from
it (unguarded) instead of writing; when it does not exist, writes.
Returns the final filesystem state and the returned `version`. -/
def write_versionfile (cfg : Config) (env : Env) (fs : Fs) :
    Except String (Fs × Option String) :=
  let info := get_info cfg env fs true
  let r := recordOf cfg info
  if r.vcs_info.1 = some ("mercurial") then
    match writefile fs r with
    | Except.error e => Except.error e
    | Except.ok fs2 => Except.ok (fs2, info.version)
  else
    if (fs.versionFile).isSome then
      match importVersion fs with
      | Except.error e => Except.error e
      | Except.ok r2 => Except.ok (fs, r2.version)
    else
      match writefile fs r with
      | Except.error e => Except.error e
      | Except.ok fs2 => Except.ok (fs2, info.version)

/-- Module constant `name` (line 184). -/
def name : String := "cynetworkx"

/-- Module constant `major` (line 185). -/
def major : String := "3"

/-- Module constant `minor` (line 186). -/
def minor : String := "0"

/-- Module constant `dev` (line 191): the current release is declared a
development release. -/
def dev : Bool := true

/-- The static constants of `release.py`, bundled. -/
def releaseConfig : Config :=
  { name := name, major := major, minor := minor, dev := dev }

end Release

namespace Release

/-! ### Helper lemmas about the resolution paths -/

/-- `get_revision` never obtains a revision or tag; only the vcs kind
depends on the marker directory. -/
lemma get_revision_eq (fs : Fs) :
    get_revision fs =
      (none, ((if fs.gitMarker then some ("git") else none), (none, none))) := rfl

/-- When `version.py` holds an importable record, `get_info` returns the
contents of that record, for either value of `dynamic` (the dynamic step
never obtains a revision, hence always falls through to the import). -/
lemma getInfo_parsed (cfg : Config) (env : Env) (fs : Fs) (d : Bool)
    (r : VersionRecord) (h : fs.versionFile = some (VersionFile.parsed r)) :
    get_info cfg env fs d =
      { date := r.date, date_info := r.date_info, version := r.version,
        version_info := r.version_info, vcs_info := some r.vcs_info } := by
  cases d <;> simp [get_info, importVersion, h, get_revision]

/-- When the import of `version.py` fails (file absent or unimportable),
`get_info` synthesizes the metadata from the static constants, for either
value of `dynamic`. -/
lemma getInfo_importFailed (cfg : Config) (env : Env) (fs : Fs) (d : Bool)
    (h : fs.versionFile = none ∨ fs.versionFile = some VersionFile.unimportable) :
    get_info cfg env fs d =
      { date := asctime (utcfromtimestamp (timestampOf env)),
        date_info := utcfromtimestamp (timestampOf env),
        version := some (synthVersion cfg (utcfromtimestamp (timestampOf env))),
        version_info := some (cfg.name, cfg.major, cfg.minor, none),
        vcs_info := some (none, (none, none)) } := by
  rcases h with h | h <;> cases d <;>
    simp [get_info, importVersion, h, get_revision]

/-- On the non-mercurial path with an existing importable `version.py`,
`write_versionfile` leaves the filesystem unchanged and returns the
version imported from the file. -/
lemma write_versionfile_parsed (cfg : Config) (env : Env) (fs : Fs)
    (r : VersionRecord) (hf : fs.versionFile = some (VersionFile.parsed r))
    (hm : r.vcs_info.1 ≠ some ("mercurial")) :
    write_versionfile cfg env fs = Except.ok (fs, r.version) := by
  simp [write_versionfile, getInfo_parsed cfg env fs true r hf, recordOf,
    hm, hf, importVersion]

/-- When `version.py` is absent and the disk write succeeds,
`write_versionfile` writes the freshly resolved record. -/
lemma write_versionfile_absent (cfg : Config) (env : Env) (fs : Fs)
    (hf : fs.versionFile = none) (hw : fs.writeErr = false) :
    write_versionfile cfg env fs =
      Except.ok
        ({ fs with versionFile := some (VersionFile.parsed (recordOf cfg (get_info cfg env fs true))) },
         (get_info cfg env fs true).version) := by
  simp [write_versionfile, getInfo_importFailed cfg env fs true (Or.inl hf),
    recordOf, hf, writefile, hw]

/-- When `version.py` exists but cannot be imported, the unguarded
`from version import version` of `write_versionfile` raises. -/
lemma write_versionfile_unimportable (cfg : Config) (env : Env) (fs : Fs)
    (hf : fs.versionFile = some VersionFile.unimportable) :
    write_versionfile cfg env fs = Except.error ("ImportError") := by
  simp [write_versionfile, getInfo_importFailed cfg env fs true (Or.inr hf),
    recordOf, hf, importVersion]

/-! ### Claim C1 -/

/-- Claim C1: with no version-control marker and no generated `version.py`,
`get_info` with dynamic resolution enabled resolves the version string to
exactly `major.minor` when the development flag is false, and to
`major.minor` followed by `.dev_` and the resolved timestamp formatted as
`%Y%m%d%H%M%S` when the development flag is true. -/
theorem claim_C1 (cfg : Config) (env : Env) (fs : Fs)
    (hm : fs.gitMarker = false) (hf : fs.versionFile = none) :
    (get_info cfg env fs true).version =
      some (if cfg.dev then
              cfg.major ++ "." ++ cfg.minor ++ ".dev_" ++
                strftime_YmdHMS (utcfromtimestamp (timestampOf env))
            else cfg.major ++ "." ++ cfg.minor) := by
  rw [getInfo_importFailed cfg env fs true (Or.inl hf)]
  rfl

/-- Witness for claim C1 at a concrete state (marker absent, file absent,
development flag set, reproducible timestamp 0). -/
theorem claim_C1_witness :
    (Fs.mk false none false).gitMarker = false ∧
    (Fs.mk false none false).versionFile = none ∧
    (get_info releaseConfig (Env.mk (some 0) 0) (Fs.mk false none false) true).version =
      some (if releaseConfig.dev then
              releaseConfig.major ++ "." ++ releaseConfig.minor ++ ".dev_" ++
                strftime_YmdHMS (utcfromtimestamp (timestampOf (Env.mk (some 0) 0)))
            else releaseConfig.major ++ "." ++ releaseConfig.minor) :=
  ⟨rfl, rfl, claim_C1 releaseConfig (Env.mk (some 0) 0) (Fs.mk false none false) rfl rfl⟩

end Release

namespace Release

/-- On the mercurial path (the existing importable `version.py` records
vcs kind `mercurial`) with a working disk, `write_versionfile` rewrites
the file with the freshly resolved record. -/
lemma write_versionfile_merc (cfg : Config) (env : Env) (fs : Fs)
    (r : VersionRecord) (hf : fs.versionFile = some (VersionFile.parsed r))
    (hm : r.vcs_info.1 = some ("mercurial")) (hw : fs.writeErr = false) :
    write_versionfile cfg env fs =
      Except.ok
        ({ fs with versionFile := some (VersionFile.parsed (recordOf cfg (get_info cfg env fs true))) },
         (get_info cfg env fs true).version) := by
  simp [write_versionfile, getInfo_parsed cfg env fs true r hf, recordOf,
    hm, writefile, hw]

/-- On the mercurial path with a failing disk, the write error
propagates. -/
lemma write_versionfile_merc_err (cfg : Config) (env : Env) (fs : Fs)
    (r : VersionRecord) (hf : fs.versionFile = some (VersionFile.parsed r))
    (hm : r.vcs_info.1 = some ("mercurial")) (hw : fs.writeErr = true) :
    write_versionfile cfg env fs = Except.error ("IOError") := by
  simp [write_versionfile, getInfo_parsed cfg env fs true r hf, recordOf,
    hm, writefile, hw]

/-- When `version.py` is absent and the disk write fails, the write error
propagates. -/
lemma write_versionfile_absent_err (cfg : Config) (env : Env) (fs : Fs)
    (hf : fs.versionFile = none) (hw : fs.writeErr = true) :
    write_versionfile cfg env fs = Except.error ("IOError") := by
  simp [write_versionfile, getInfo_importFailed cfg env fs true (Or.inl hf),
    recordOf, hf, writefile, hw]

/-! ### Claim C2 -/

/-- A generated record whose vcs kind is empty, as this module itself
produces on a fresh write. -/
def recG : VersionRecord :=
  { version := some ("3.0"), date := "d", dev := true,
    version_info := some ("cynetworkx", "3", "0", none),
    date_info := DateTime.mk 1970 1 1 0 0 0 3,
    vcs_info := (none, (none, none)) }

/-- State with the `.git` marker present and `version.py` present. -/
def fsG : Fs :=
  { gitMarker := true, versionFile := some (VersionFile.parsed recG),
    writeErr := false }

/-- Claim C2 counterexample: with the `.git` marker present the resolved
vcs kind is `git`, yet `write_versionfile` does not rewrite the existing
`version.py`: it returns with the filesystem unchanged (the write path
requires vcs kind `mercurial`, which `get_revision` never produces). -/
theorem claim_C2_cex :
    fsG.gitMarker = true ∧
    (get_revision fsG).2.1 = some ("git") ∧
    write_versionfile releaseConfig (Env.mk (some 0) 0) fsG =
      Except.ok (fsG, some ("3.0")) :=
  ⟨rfl, rfl, rfl⟩

/-- Claim C2 (amended): with the marker present, the vcs kind resolved by
`get_revision` is `git`; `write_versionfile` writes the generated file
when it does not already exist, and leaves an existing importable file
unchanged whenever its recorded vcs kind is not `mercurial`. -/
theorem claim_C2_amended (cfg : Config) (env : Env) (fs : Fs)
    (hg : fs.gitMarker = true) :
    (get_revision fs).2.1 = some ("git") ∧
    (fs.versionFile = none → fs.writeErr = false →
      write_versionfile cfg env fs =
        Except.ok
          ({ fs with versionFile := some (VersionFile.parsed (recordOf cfg (get_info cfg env fs true))) },
           (get_info cfg env fs true).version)) ∧
    (∀ r, fs.versionFile = some (VersionFile.parsed r) →
      r.vcs_info.1 ≠ some ("mercurial") →
      write_versionfile cfg env fs = Except.ok (fs, r.version)) := by
  refine ⟨?_, ?_, ?_⟩
  · simp [get_revision_eq, hg]
  · intro hf hw
    exact write_versionfile_absent cfg env fs hf hw
  · intro r hf hm
    exact write_versionfile_parsed cfg env fs r hf hm

/-- Witness for claim C2 (amended) at a concrete state: marker present,
`version.py` absent, working disk; the file gets written. -/
theorem claim_C2_amended_witness :
    (Fs.mk true none false).gitMarker = true ∧
    (get_revision (Fs.mk true none false)).2.1 = some ("git") ∧
    write_versionfile releaseConfig (Env.mk (some 0) 0) (Fs.mk true none false) =
      Except.ok
        ({ Fs.mk true none false with versionFile := some (VersionFile.parsed (recordOf releaseConfig (get_info releaseConfig (Env.mk (some 0) 0) (Fs.mk true none false) true))) },
         (get_info releaseConfig (Env.mk (some 0) 0) (Fs.mk true none false) true).version) :=
  ⟨rfl,
   (claim_C2_amended releaseConfig (Env.mk (some 0) 0) (Fs.mk true none false) rfl).1,
   (claim_C2_amended releaseConfig (Env.mk (some 0) 0) (Fs.mk true none false) rfl).2.1 rfl rfl⟩

/-! ### Claim C3 -/

/-- Claim C3: round trip. Whenever `write_versionfile` returns normally
with final filesystem state `fs2` and version `v`, a subsequent
`get_info` with dynamic resolution disabled, in any environment, reads
back exactly `v` as the version. -/
theorem claim_C3 (cfg : Config) (env env2 : Env) (fs fs2 : Fs)
    (v : Option String)
    (h : write_versionfile cfg env fs = Except.ok (fs2, v)) :
    (get_info cfg env2 fs2 false).version = v := by
  cases hv : fs.versionFile with
  | none =>
    cases hw : fs.writeErr with
    | false =>
      rw [write_versionfile_absent cfg env fs hv hw] at h
      simp only [Except.ok.injEq, Prod.mk.injEq] at h
      obtain ⟨h1, h2⟩ := h
      rw [← h1, ← h2,
        getInfo_parsed cfg env2 _ false (recordOf cfg (get_info cfg env fs true)) rfl]
      rfl
    | true =>
      rw [write_versionfile_absent_err cfg env fs hv hw] at h
      exact absurd h (by simp)
  | some vf =>
    cases vf with
    | unimportable =>
      rw [write_versionfile_unimportable cfg env fs hv] at h
      exact absurd h (by simp)
    | parsed r =>
      by_cases hm : r.vcs_info.1 = some ("mercurial")
      · cases hw : fs.writeErr with
        | false =>
          rw [write_versionfile_merc cfg env fs r hv hm hw] at h
          simp only [Except.ok.injEq, Prod.mk.injEq] at h
          obtain ⟨h1, h2⟩ := h
          rw [← h1, ← h2,
            getInfo_parsed cfg env2 _ false (recordOf cfg (get_info cfg env fs true)) rfl]
          rfl
        | true =>
          rw [write_versionfile_merc_err cfg env fs r hv hm hw] at h
          exact absurd h (by simp)
      · rw [write_versionfile_parsed cfg env fs r hv hm] at h
        simp only [Except.ok.injEq, Prod.mk.injEq] at h
        obtain ⟨h1, h2⟩ := h
        rw [← h1, ← h2, getInfo_parsed cfg env2 fs false r hv]

/-- Witness for claim C3: write into an empty state, then read back with
dynamic resolution disabled in a different environment. -/
theorem claim_C3_witness :
    write_versionfile releaseConfig (Env.mk (some 0) 0) (Fs.mk false none false) =
      Except.ok
        (Fs.mk false
          (some (VersionFile.parsed
            (VersionRecord.mk (some ("3.0.dev_19700101000000"))
              ("Thu Jan  1 00:00:00 1970") true
              (some ("cynetworkx", "3", "0", none))
              (DateTime.mk 1970 1 1 0 0 0 3) (none, (none, none)))))
          false,
         some ("3.0.dev_19700101000000")) ∧
    (get_info releaseConfig (Env.mk (some 5) 7)
        (Fs.mk false
          (some (VersionFile.parsed
            (VersionRecord.mk (some ("3.0.dev_19700101000000"))
              ("Thu Jan  1 00:00:00 1970") true
              (some ("cynetworkx", "3", "0", none))
              (DateTime.mk 1970 1 1 0 0 0 3) (none, (none, none)))))
          false)
        false).version = some ("3.0.dev_19700101000000") :=
  ⟨rfl,
   claim_C3 releaseConfig (Env.mk (some 0) 0) (Env.mk (some 5) 7)
     (Fs.mk false none false) _ _ rfl⟩

end Release

namespace Release

/-! ### Claim C4 -/

/-- An existing `version.py` record whose recorded vcs kind is
`mercurial` (as a file generated under the original mercurial checkout
of the upstream project would record). -/
def recM : VersionRecord :=
  { version := some ("1.0"), date := "d", dev := false,
    version_info := some ("cynetworkx", "1", "0", none),
    date_info := DateTime.mk 1970 1 1 0 0 0 3,
    vcs_info := (some ("mercurial"), (none, none)) }

/-- The record the writer produces when rerun on `fsM`: identical except
that `dev` is refreshed from the static constant. -/
def recM2 : VersionRecord := { recM with dev := true }

/-- State with no version-control marker and `version.py` present,
recording vcs kind `mercurial`. -/
def fsM : Fs :=
  { gitMarker := false, versionFile := some (VersionFile.parsed recM),
    writeErr := false }

/-- Claim C4 counterexample: no marker is present and `version.py`
exists, yet `write_versionfile` rewrites it (the mercurial test at line
102 reads the vcs kind imported from the existing file, so a file that
records `mercurial` is overwritten), changing its contents. -/
theorem claim_C4_cex :
    fsM.gitMarker = false ∧
    fsM.versionFile = some (VersionFile.parsed recM) ∧
    write_versionfile releaseConfig (Env.mk (some 0) 0) fsM =
      Except.ok ({ fsM with versionFile := some (VersionFile.parsed recM2) },
                 some ("1.0")) ∧
    recM2 ≠ recM :=
  ⟨rfl, rfl, rfl, by decide⟩

/-- Claim C4 (amended): with no version-control marker present and an
existing importable `version.py` whose recorded vcs kind is not
`mercurial`, `write_versionfile` leaves the filesystem unchanged and
returns the version read from the file. -/
theorem claim_C4_amended (cfg : Config) (env : Env) (fs : Fs)
    (r : VersionRecord) (hg : fs.gitMarker = false)
    (hf : fs.versionFile = some (VersionFile.parsed r))
    (hm : r.vcs_info.1 ≠ some ("mercurial")) :
    write_versionfile cfg env fs = Except.ok (fs, r.version) :=
  write_versionfile_parsed cfg env fs r hf hm

/-- An existing `version.py` record with an empty vcs kind. -/
def recN : VersionRecord :=
  { version := some ("2.1"), date := "d2", dev := false,
    version_info := none,
    date_info := DateTime.mk 2020 1 1 0 0 0 2,
    vcs_info := (none, (none, none)) }

/-- State with no marker and `version.py` holding `recN`. -/
def fsN : Fs :=
  { gitMarker := false, versionFile := some (VersionFile.parsed recN),
    writeErr := false }

/-- Witness for claim C4 (amended) at a concrete state. -/
theorem claim_C4_amended_witness :
    fsN.gitMarker = false ∧
    fsN.versionFile = some (VersionFile.parsed recN) ∧
    recN.vcs_info.1 ≠ some ("mercurial") ∧
    write_versionfile releaseConfig (Env.mk (some 0) 0) fsN =
      Except.ok (fsN, some ("2.1")) :=
  ⟨rfl, rfl, by decide,
   claim_C4_amended releaseConfig (Env.mk (some 0) 0) fsN recN rfl rfl (by decide)⟩

/-! ### Claim C5 -/

/-- Claim C5: when dynamic resolution fails (no marker) or is disabled,
and `version.py` is absent, `get_info` synthesizes the version string
from the static constants and returns empty revision and vcs fields:
`version_info = (name, major, minor, None)` and
`vcs_info = (None, (None, None))`. -/
theorem claim_C5 (cfg : Config) (env : Env) (fs : Fs) (d : Bool)
    (hd : d = false ∨ fs.gitMarker = false) (hf : fs.versionFile = none) :
    (get_info cfg env fs d).version =
      some (synthVersion cfg (utcfromtimestamp (timestampOf env))) ∧
    (get_info cfg env fs d).version_info =
      some (cfg.name, cfg.major, cfg.minor, none) ∧
    (get_info cfg env fs d).vcs_info = some (none, (none, none)) := by
  rw [getInfo_importFailed cfg env fs d (Or.inl hf)]
  exact ⟨rfl, rfl, rfl⟩

/-- Witness for claim C5 at a concrete state (dynamic enabled, no marker,
no file). -/
theorem claim_C5_witness :
    ((true : Bool) = false ∨ (Fs.mk false none false).gitMarker = false) ∧
    (Fs.mk false none false).versionFile = none ∧
    ((get_info releaseConfig (Env.mk (some 0) 0) (Fs.mk false none false) true).version =
        some (synthVersion releaseConfig (utcfromtimestamp (timestampOf (Env.mk (some 0) 0)))) ∧
      (get_info releaseConfig (Env.mk (some 0) 0) (Fs.mk false none false) true).version_info =
        some (releaseConfig.name, releaseConfig.major, releaseConfig.minor, none) ∧
      (get_info releaseConfig (Env.mk (some 0) 0) (Fs.mk false none false) true).vcs_info =
        some (none, (none, none))) :=
  ⟨Or.inr rfl, rfl,
   claim_C5 releaseConfig (Env.mk (some 0) 0) (Fs.mk false none false) true
     (Or.inr rfl) rfl⟩

/-! ### Claim C6 -/

/-- Claim C6: every fallback path of `get_info` returns a value rather
than propagating an error. A missing generated file or a failed import
of an existing file yields the synthesized fallback metadata; a missing
version-control marker falls back to the contents of the generated file
when one is importable. (`get_info` is a total function of the modelled
state: the only exception arising inside it, `ImportError`, is caught.) -/
theorem claim_C6 (cfg : Config) (env : Env) (fs : Fs) (d : Bool) :
    (fs.versionFile = none ∨ fs.versionFile = some VersionFile.unimportable →
      get_info cfg env fs d =
        { date := asctime (utcfromtimestamp (timestampOf env)),
          date_info := utcfromtimestamp (timestampOf env),
          version := some (synthVersion cfg (utcfromtimestamp (timestampOf env))),
          version_info := some (cfg.name, cfg.major, cfg.minor, none),
          vcs_info := some (none, (none, none)) }) ∧
    (∀ r, fs.gitMarker = false →
      fs.versionFile = some (VersionFile.parsed r) →
      get_info cfg env fs d =
        { date := r.date, date_info := r.date_info, version := r.version,
          version_info := r.version_info, vcs_info := some r.vcs_info }) :=
  ⟨fun h => getInfo_importFailed cfg env fs d h,
   fun r _ hf => getInfo_parsed cfg env fs d r hf⟩

/-- Witness for claim C6 at a concrete state: `version.py` exists but
its import fails, and `get_info` still returns the fallback value. -/
theorem claim_C6_witness :
    ((Fs.mk false (some VersionFile.unimportable) false).versionFile = none ∨
      (Fs.mk false (some VersionFile.unimportable) false).versionFile =
        some VersionFile.unimportable) ∧
    get_info releaseConfig (Env.mk (some 0) 0)
        (Fs.mk false (some VersionFile.unimportable) false) true =
      { date := "Thu Jan  1 00:00:00 1970",
        date_info := DateTime.mk 1970 1 1 0 0 0 3,
        version := some ("3.0.dev_19700101000000"),
        version_info := some ("cynetworkx", "3", "0", none),
        vcs_info := some (none, (none, none)) } :=
  ⟨Or.inr rfl,
   (claim_C6 releaseConfig (Env.mk (some 0) 0)
       (Fs.mk false (some VersionFile.unimportable) false) true).1 (Or.inr rfl)⟩

end Release

namespace Release

/-! ### Claim C7 -/

/-- State with `version.py` present but unimportable, and a working disk. -/
def fsU : Fs :=
  { gitMarker := false, versionFile := some VersionFile.unimportable,
    writeErr := false }

/-- Claim C7 counterexample: with a fully working disk (no filesystem
write error), `write_versionfile` still propagates an exception — the
unguarded `from version import version` on the path where `version.py`
exists but cannot be imported. -/
theorem claim_C7_cex :
    fsU.writeErr = false ∧
    write_versionfile releaseConfig (Env.mk (some 0) 0) fsU =
      Except.error ("ImportError") :=
  ⟨rfl, rfl⟩

/-- Claim C7 (amended): `get_info` and `get_revision` return normally on
every modelled state; `write_versionfile` propagates an exception exactly
when a filesystem error hits a write it attempts (file absent, or an
existing file recording vcs kind `mercurial`), or when `version.py`
exists but its unguarded import fails. -/
theorem claim_C7_amended (cfg : Config) (env : Env) (fs : Fs) :
    (∃ e, write_versionfile cfg env fs = Except.error e) ↔
      ((fs.versionFile = none ∧ fs.writeErr = true) ∨
       fs.versionFile = some VersionFile.unimportable ∨
       (∃ r, fs.versionFile = some (VersionFile.parsed r) ∧
         r.vcs_info.1 = some ("mercurial") ∧ fs.writeErr = true)) := by
  cases hv : fs.versionFile with
  | none =>
    cases hw : fs.writeErr with
    | false =>
      rw [write_versionfile_absent cfg env fs hv hw]
      simp [hv, hw]
    | true =>
      rw [write_versionfile_absent_err cfg env fs hv hw]
      simp [hv, hw]
  | some vf =>
    cases vf with
    | unimportable =>
      rw [write_versionfile_unimportable cfg env fs hv]
      simp [hv]
    | parsed r =>
      by_cases hm : r.vcs_info.1 = some ("mercurial")
      · cases hw : fs.writeErr with
        | false =>
          rw [write_versionfile_merc cfg env fs r hv hm hw]
          simp [hv, hw, hm]
        | true =>
          rw [write_versionfile_merc_err cfg env fs r hv hm hw]
          simp [hv, hw, hm]
      · rw [write_versionfile_parsed cfg env fs r hv hm]
        simp [hv, hm]

/-! ### Claim C8 -/

/-- Claim C8: when `SOURCE_DATE_EPOCH` is set to the integer `n`,
`get_info` determines `date_info` as `utcfromtimestamp n` and `date` as
its `asctime` rendering, entirely independent of the current system
time; when the variable is unset, the current system time is used. Stated
on the states where the determined date is returned (no importable
`version.py`, whose stored date would be passed through instead). -/
theorem claim_C8 (cfg : Config) (fs : Fs) (d : Bool) (n now now2 : Nat)
    (h : fs.versionFile = none ∨ fs.versionFile = some VersionFile.unimportable) :
    (get_info cfg (Env.mk (some n) now) fs d).date_info = utcfromtimestamp n ∧
    (get_info cfg (Env.mk (some n) now) fs d).date =
      asctime (utcfromtimestamp n) ∧
    get_info cfg (Env.mk (some n) now) fs d =
      get_info cfg (Env.mk (some n) now2) fs d ∧
    (get_info cfg (Env.mk none now) fs d).date_info = utcfromtimestamp now ∧
    (get_info cfg (Env.mk none now) fs d).date =
      asctime (utcfromtimestamp now) := by
  rw [getInfo_importFailed cfg (Env.mk (some n) now) fs d h,
    getInfo_importFailed cfg (Env.mk (some n) now2) fs d h,
    getInfo_importFailed cfg (Env.mk none now) fs d h]
  exact ⟨rfl, rfl, rfl, rfl, rfl⟩

/-- Witness for claim C8 at concrete values: override 0 against system
times 1 and 2, and the unset case at system time 1. -/
theorem claim_C8_witness :
    ((Fs.mk false none false).versionFile = none ∨
      (Fs.mk false none false).versionFile = some VersionFile.unimportable) ∧
    ((get_info releaseConfig (Env.mk (some 0) 1) (Fs.mk false none false) true).date_info =
        utcfromtimestamp 0 ∧
      (get_info releaseConfig (Env.mk (some 0) 1) (Fs.mk false none false) true).date =
        asctime (utcfromtimestamp 0) ∧
      get_info releaseConfig (Env.mk (some 0) 1) (Fs.mk false none false) true =
        get_info releaseConfig (Env.mk (some 0) 2) (Fs.mk false none false) true ∧
      (get_info releaseConfig (Env.mk none 1) (Fs.mk false none false) true).date_info =
        utcfromtimestamp 1 ∧
      (get_info releaseConfig (Env.mk none 1) (Fs.mk false none false) true).date =
        asctime (utcfromtimestamp 1)) :=
  ⟨Or.inl rfl,
   claim_C8 releaseConfig (Fs.mk false none false) true 0 1 2 (Or.inl rfl)⟩

/-! ### Claim C9 -/

/-- Claim C9 counterexample: two invocations of `get_info` with identical
constants (`major`, `minor`, `dev`) and identical resolved revision
(shown by the equal `version_info`) produce different version strings,
because with the development flag set the version string also depends on
the resolved timestamp. -/
theorem claim_C9_cex :
    (get_info releaseConfig (Env.mk (some 0) 0) (Fs.mk false none false) true).version_info =
      (get_info releaseConfig (Env.mk (some 86400) 0) (Fs.mk false none false) true).version_info ∧
    (get_info releaseConfig (Env.mk (some 0) 0) (Fs.mk false none false) true).version ≠
      (get_info releaseConfig (Env.mk (some 86400) 0) (Fs.mk false none false) true).version :=
  ⟨rfl, by decide⟩

/-- Claim C9 (amended): on the synthesis path (no importable
`version.py`), the version string derives deterministically from the
`major` and `minor` constants, the `dev` flag, and the resolved
`date_info` timestamp; two such invocations agreeing on those (the
resolved revision there is always `None`) yield equal version strings,
regardless of every other input. -/
theorem claim_C9_amended (cfg cfg2 : Config) (env env2 : Env) (fs fs2 : Fs)
    (d d2 : Bool) (hmaj : cfg.major = cfg2.major)
    (hmin : cfg.minor = cfg2.minor) (hdev : cfg.dev = cfg2.dev)
    (ht : timestampOf env = timestampOf env2)
    (h : fs.versionFile = none ∨ fs.versionFile = some VersionFile.unimportable)
    (h2 : fs2.versionFile = none ∨ fs2.versionFile = some VersionFile.unimportable) :
    (get_info cfg env fs d).version = (get_info cfg2 env2 fs2 d2).version := by
  rw [getInfo_importFailed cfg env fs d h,
    getInfo_importFailed cfg2 env2 fs2 d2 h2]
  simp [synthVersion, hmaj, hmin, hdev, ht]

/-- Witness for claim C9 (amended): same override timestamp, different
system times, marker states and dynamic flags; equal version strings. -/
theorem claim_C9_amended_witness :
    releaseConfig.major = releaseConfig.major ∧
    timestampOf (Env.mk (some 10) 1) = timestampOf (Env.mk (some 10) 999) ∧
    (get_info releaseConfig (Env.mk (some 10) 1) (Fs.mk true none false) true).version =
      (get_info releaseConfig (Env.mk (some 10) 999)
        (Fs.mk false (some VersionFile.unimportable) true) false).version :=
  ⟨rfl, rfl,
   claim_C9_amended releaseConfig releaseConfig (Env.mk (some 10) 1)
     (Env.mk (some 10) 999) (Fs.mk true none false)
     (Fs.mk false (some VersionFile.unimportable) true) true false
     rfl rfl rfl rfl (Or.inl rfl) (Or.inr rfl)⟩

/-! ### Claim C10 -/

/-- Claim C10: `get_revision` always returns revision `None` with both
the revision and tag components of `vcs_info` equal to `None` — even
with the `.git` marker present only the vcs kind is set. Consequently
dynamic resolution never supplies a revision: without an importable
`version.py` the revision slot of `version_info` is `None`, and with one
the returned `vcs_info`/`version_info` are exactly those imported from
the file. -/
theorem claim_C10 (cfg : Config) (env : Env) (fs : Fs) (d : Bool) :
    get_revision fs =
      (none, ((if fs.gitMarker then some ("git") else none), (none, none))) ∧
    (fs.versionFile = none ∨ fs.versionFile = some VersionFile.unimportable →
      (get_info cfg env fs d).version_info =
        some (cfg.name, cfg.major, cfg.minor, none)) ∧
    (∀ r, fs.versionFile = some (VersionFile.parsed r) →
      (get_info cfg env fs d).vcs_info = some r.vcs_info ∧
      (get_info cfg env fs d).version_info = r.version_info) := by
  refine ⟨get_revision_eq fs, ?_, ?_⟩
  · intro h
    rw [getInfo_importFailed cfg env fs d h]
  · intro r hf
    rw [getInfo_parsed cfg env fs d r hf]
    exact ⟨rfl, rfl⟩

/-- Witness for claim C10 with the `.git` marker present: the revision
is still `None` and only the vcs kind is set, and the revision slot of
the synthesized `version_info` is `None`. -/
theorem claim_C10_witness :
    get_revision (Fs.mk true none false) =
      (none, (some ("git"), (none, none))) ∧
    (get_info releaseConfig (Env.mk (some 0) 0) (Fs.mk true none false) true).version_info =
      some ("cynetworkx", "3", "0", none) :=
  ⟨(claim_C10 releaseConfig (Env.mk (some 0) 0) (Fs.mk true none false) true).1,
   (claim_C10 releaseConfig (Env.mk (some 0) 0) (Fs.mk true none false) true).2.1
     (Or.inl rfl)⟩

end Release

namespace Release

/-- Witness for claim C7 (amended): at a concrete state with the file
absent and a failing disk, the characterization yields an error. -/
theorem claim_C7_amended_witness :
    ∃ e, write_versionfile releaseConfig (Env.mk (some 3) 4) (Fs.mk false none true) =
      Except.error e :=
  (claim_C7_amended releaseConfig (Env.mk (some 3) 4) (Fs.mk false none true)).mpr
    (Or.inl ⟨rfl, rfl⟩)

end Release
